import Mathlib

/-!
Verification of the cross-chain transfer orchestration scripts
(`src/scripts/token-transfer-payload.ts` and `src/scripts/create-wrapped.ts`)
against their natural-language specification.

The two scripts are shallowly embedded: the external SDK collaborators
(Wormhole object, ChainAdapter, attestation source) are modelled as an
environment of response functions, and each script becomes a pure Lean
function from that environment to a trace of the externally visible calls it
makes, together with its result.  All claims are then theorems about those
functions.
-/

namespace Wormhole

/-- The chain/address pair produced by `Wormhole.tokenId(chain, address)`. -/
structure TokenId where
  chain : String
  address : String
deriving DecidableEq, Repr

/-- The chain context, signer and address bundle (`SignerStuff`) produced by
`getSigner(chain)` in the helpers.  Only the fields the scripts read are
modelled. -/
structure SignerStuff where
  chain : String
  address : String
  signer : String
deriving DecidableEq, Repr

/-- The `delivery` field of a route: an `automatic` boolean plus an optional
`nativeGas` bigint. -/
structure Delivery where
  automatic : Bool
  nativeGas : Option Int
deriving DecidableEq, Repr

/-- The `route` argument of `tokenTransfer` in
`token-transfer-payload.ts`: token, amount (bigint base units), source and
destination signer bundles, optional delivery options and optional payload
bytes. -/
structure Route where
  token : TokenId
  amount : Int
  source : SignerStuff
  destination : SignerStuff
  delivery : Option Delivery
  payload : Option (List Nat)
deriving DecidableEq, Repr

/-- A token/amount pair as found in the SDK's `TransferQuote`. -/
structure TokenAmount where
  token : TokenId
  amount : Int
deriving DecidableEq, Repr

/-- The quote returned by `TokenTransfer.quoteTransfer`: the script reads
`quote.destinationToken.{token, amount}`. -/
structure Quote where
  sourceToken : TokenAmount
  destinationToken : TokenAmount
deriving DecidableEq, Repr

/-- Whether the transfer is automatic: the `automatic` flag passed to
`wh.tokenTransfer` is `route.delivery?.automatic ?? false`, and
`xfer.transfer.automatic` reads it back. -/
def deliveryAutomatic (r : Route) : Bool :=
  (r.delivery.map fun d => d.automatic).getD false

/-- Environment of the external SDK calls `tokenTransfer` makes.  Each
response is a function of the route of the leg performing the call, so the
two legs of a round trip may observe different answers. -/
structure TransferEnv where
  quoteOf : Route → Quote
  initiateTxids : Route → List String
  attestIds : Route → List String
  completeTxids : Route → List String

/-- Externally visible calls made by `tokenTransfer`, each tagged with the
route of the leg that made it. -/
inductive Event where
  | quoted (r : Route) (q : Quote)
  | initiated (r : Route) (txids : List String)
  | fetchedAttestation (r : Route) (timeoutMs : Nat) (ids : List String)
  | completedTransfer (r : Route) (txids : List String)
deriving DecidableEq, Repr

/-- The error thrown by `tokenTransfer` when the quoted destination amount
cannot cover the relayer fee (`InsufficientAmount` in the spec's
taxonomy). -/
inductive TransferError where
  | insufficientAmount
deriving DecidableEq, Repr

/-- The transfer state accumulated by one `TokenTransfer` object over the
script's run: the request plus the transaction/attestation ids of each
phase. -/
structure TransferOutcome where
  route : Route
  sourceTxIds : List String
  attestationIds : List String
  destinationTxIds : List String
deriving DecidableEq, Repr

/-- Embedding of `tokenTransfer` from `token-transfer-payload.ts`.  Mirrors
the source line by line: build the transfer, quote it, throw if the transfer
is automatic and `quote.destinationToken.amount < 0`, initiate on the source
chain, return immediately if automatic, otherwise fetch the attestation with
a 60 000 ms timeout and complete on the destination chain; then, if
`roundTrip` is set, recurse once with the quote's destination token and
amount and the source/destination bundles swapped.  The JS recursive call
passes no `roundTrip` argument (so it is `undefined`, hence falsy), which
the embedding renders as `false`. -/
def tokenTransfer (env : TransferEnv) (route : Route) (roundTrip : Bool) :
    List Event × Except TransferError TransferOutcome :=
  let q := env.quoteOf route
  if deliveryAutomatic route = true ∧ q.destinationToken.amount < 0 then
    ([.quoted route q], .error .insufficientAmount)
  else
    let src := env.initiateTxids route
    if deliveryAutomatic route then
      ([.quoted route q, .initiated route src], .ok ⟨route, src, [], []⟩)
    else
      let att := env.attestIds route
      let dst := env.completeTxids route
      let ev := [Event.quoted route q, Event.initiated route src,
                 Event.fetchedAttestation route 60000 att,
                 Event.completedTransfer route dst]
      match roundTrip with
      | false => (ev, .ok ⟨route, src, att, dst⟩)
      | true =>
        let route2 : Route :=
          { route with
            token := q.destinationToken.token
            amount := q.destinationToken.amount
            source := route.destination
            destination := route.source }
        let res2 := tokenTransfer env route2 false
        (ev ++ res2.1, res2.2)
termination_by (if roundTrip then 1 else 0)
decreasing_by simp

/-- Routes of the `quoted` events of a trace, in order: one per transfer leg
that was started (every leg quotes first). -/
def quotedRoutesOf : List Event → List Route
  | [] => []
  | .quoted r _ :: tl => r :: quotedRoutesOf tl
  | _ :: tl => quotedRoutesOf tl

/-- Routes of the `initiated` events of a trace, in order: one per
source-chain submission. -/
def initiatedRoutesOf : List Event → List Route
  | [] => []
  | .initiated r _ :: tl => r :: initiatedRoutesOf tl
  | _ :: tl => initiatedRoutesOf tl

/-- Whether a trace contains a `fetchAttestation` call. -/
def hasFetch : List Event → Bool
  | [] => false
  | .fetchedAttestation _ _ _ :: _ => true
  | _ :: tl => hasFetch tl

/-- Whether a trace contains a `completeTransfer` call. -/
def hasComplete : List Event → Bool
  | [] => false
  | .completedTransfer _ _ :: _ => true
  | _ :: tl => hasComplete tl

/-- Scanning a trace left to right while remembering the routes already
quoted: `true` iff every `initiated` event's route was quoted strictly
earlier in the trace. -/
def quotedBeforeInitiated : List Route → List Event → Bool
  | _, [] => true
  | seen, .quoted r _ :: tl => quotedBeforeInitiated (r :: seen) tl
  | seen, .initiated r _ :: tl =>
    if r ∈ seen then quotedBeforeInitiated seen tl else false
  | seen, _ :: tl => quotedBeforeInitiated seen tl

/-! ## Embedding of `create-wrapped.ts` (the attestation flow) -/

/-- The chain/token constants of `create-wrapped.ts` (origin and destination
chains, token address, the two signer addresses), generalised into a
configuration so the flow can be reasoned about at any instantiation. -/
structure WrappedConfig where
  origChain : String
  destChain : String
  tokenAddress : String
  origSignerAddress : String
  destSignerAddress : String
deriving DecidableEq, Repr

/-- Environment of the external calls `create-wrapped.ts` makes.
`initialWrapped` is the result of the idempotence-shortcut
`tbDest.getWrappedAsset` try (`none` models the `NotFound` throw);
`pollWrapped k` is the result of the k-th `getWrappedAsset` attempt inside
the `waitForIt` poll loop; `vaa = none` models `wh.getVaa` returning no
payload after its timeout. -/
structure WrappedEnv where
  initialWrapped : Option String
  attestTxids : List String
  parseMsgs : List String
  vaa : Option String
  submitTxids : List String
  pollWrapped : Nat → Option String

/-- Externally visible calls made by `create-wrapped.ts`. -/
inductive WEvent where
  | checkWrapped
  | createAttestation (tokenAddress : String) (submitter : String)
  | submitTx (txids : List String)
  | parseTx (txid : String)
  | vaaQuery (msgId : String) (msgType : String) (timeoutMs : Nat)
  | submitAttestation (payload : String) (submitter : String)
  | pollQuery (attempt : Nat)
  | sleep (ms : Nat)
deriving DecidableEq, Repr

/-- The possible outcomes of the `create-wrapped.ts` run.  `registered` is
the chain/address record the script returns; `vaaNotFound` is the
`Error` it throws when `getVaa` yields nothing; `crash` is an uncaught
runtime `TypeError` from the non-null assertions `txids[0]!` / `msgs[0]!`
firing on an empty array; `stillPolling` means the caller cancelled the
unbounded poll loop before any lookup succeeded (fuel ran out). -/
inductive WResult where
  | registered (chain : String) (address : String)
  | vaaNotFound (message : String)
  | crash
  | stillPolling
deriving DecidableEq, Repr

/-- Embedding of the `waitForIt` poll loop: attempt the wrapped-asset lookup;
on success return the chain/address pair at once, otherwise log, sleep 2000 ms
and retry forever.  The loop has no internal bound, so the embedding takes
the caller's cancellation budget as `fuel`; `attempt` numbers the lookup
attempts. -/
def waitForIt (env : WrappedEnv) (destChain : String) :
    Nat → Nat → List WEvent × Option (String × String)
  | _, 0 => ([], none)
  | attempt, fuel + 1 =>
    match env.pollWrapped attempt with
    | some w => ([.pollQuery attempt], some (destChain, w))
    | none =>
      let rest := waitForIt env destChain (attempt + 1) fuel
      (.pollQuery attempt :: .sleep 2000 :: rest.1, rest.2)

/-- Embedding of the body of `create-wrapped.ts`.  Mirrors the source: try
`getWrappedAsset` first and return "already registered" if it resolves;
otherwise create and submit the attestation transaction, take the first
returned txid (`txids[0]!`), parse it, take the first message (`msgs[0]!`),
fetch the VAA keyed by that message with type `"TokenBridge:AttestMeta"` and
a 25-minute timeout, throw if absent, submit the attestation on the
destination chain and poll `waitForIt` for the wrapped asset. -/
def createWrapped (cfg : WrappedConfig) (env : WrappedEnv) (fuel : Nat) :
    List WEvent × WResult :=
  match env.initialWrapped with
  | some w => ([.checkWrapped], .registered cfg.destChain w)
  | none =>
    let ev0 := [WEvent.checkWrapped,
                WEvent.createAttestation cfg.tokenAddress cfg.origSignerAddress,
                WEvent.submitTx env.attestTxids]
    match env.attestTxids with
    | [] => (ev0, .crash)
    | txid :: _ =>
      let ev1 := ev0 ++ [WEvent.parseTx txid]
      match env.parseMsgs with
      | [] => (ev1, .crash)
      | msg :: _ =>
        let ev2 := ev1 ++ [WEvent.vaaQuery msg "TokenBridge:AttestMeta" (25 * 60 * 1000)]
        match env.vaa with
        | none =>
          (ev2, .vaaNotFound "VAA not found after retries exhausted. Try extending the timeout.")
        | some v =>
          let ev3 := ev2 ++ [WEvent.submitAttestation v cfg.destSignerAddress,
                             WEvent.submitTx env.submitTxids]
          let poll := waitForIt env cfg.destChain 0 fuel
          match poll.2 with
          | some ca => (ev3 ++ poll.1, .registered ca.1 ca.2)
          | none => (ev3 ++ poll.1, .stillPolling)

/-- Whether a trace of the attestation flow contains a `createAttestation`
transaction-construction call. -/
def hasCreateAttestation : List WEvent → Bool
  | [] => false
  | .createAttestation _ _ :: _ => true
  | _ :: tl => hasCreateAttestation tl

/-- Whether a trace of the attestation flow contains a transaction
submission (`signSendWait`). -/
def hasSubmit : List WEvent → Bool
  | [] => false
  | .submitTx _ :: _ => true
  | _ :: tl => hasSubmit tl

/-- Number of `getVaa` queries in a trace. -/
def vaaQueryCount : List WEvent → Nat
  | [] => 0
  | .vaaQuery _ _ _ :: tl => vaaQueryCount tl + 1
  | _ :: tl => vaaQueryCount tl

/-- The `getVaa` query events of a trace, in order. -/
def vaaQueriesOf : List WEvent → List (String × String × Nat)
  | [] => []
  | .vaaQuery m t d :: tl => (m, t, d) :: vaaQueriesOf tl
  | _ :: tl => vaaQueriesOf tl

/-- Every `sleep` in the trace pauses exactly `ms` milliseconds. -/
def allSleepsAre (ms : Nat) : List WEvent → Bool
  | [] => true
  | .sleep m :: tl => if m = ms then allSleepsAre ms tl else false
  | _ :: tl => allSleepsAre ms tl

/-! ## Concrete fixtures (for counterexamples and witnesses) -/

/-- The token hard-coded in both scripts. -/
def sampleToken : TokenId :=
  ⟨"Avalanche", "0xE66b9BBB3DFf4d4444F7Dbb6c7BB4a110d1d91a3"⟩

/-- A source signer bundle on Avalanche. -/
def sampleSource : SignerStuff := ⟨"Avalanche", "avaxAddr", "avaxSigner"⟩

/-- A destination signer bundle on Solana. -/
def sampleDestination : SignerStuff := ⟨"Solana", "solAddr", "solSigner"⟩

/-- An automatic-delivery route for the sample token. -/
def autoRoute : Route :=
  { token := sampleToken
    amount := 10
    source := sampleSource
    destination := sampleDestination
    delivery := some ⟨true, some 1⟩
    payload := some [72, 105] }

/-- The same route with manual delivery. -/
def manualRoute : Route := { autoRoute with delivery := some ⟨false, none⟩ }

/-- A transfer environment whose quote reports destination amount `a`. -/
def envWithDestAmount (a : Int) : TransferEnv :=
  { quoteOf := fun r => ⟨⟨r.token, r.amount⟩, ⟨⟨"Solana", "wrappedAddr"⟩, a⟩⟩
    initiateTxids := fun _ => ["srcTx1"]
    attestIds := fun _ => ["whMsg1"]
    completeTxids := fun _ => ["dstTx1"] }

/-- The chain/token constants of `create-wrapped.ts`. -/
def sampleCfg : WrappedConfig :=
  { origChain := "Avalanche"
    destChain := "Solana"
    tokenAddress := "0xE66b9BBB3DFf4d4444F7Dbb6c7BB4a110d1d91a3"
    origSignerAddress := "origAddr"
    destSignerAddress := "destAddr" }

/-- A well-behaved attestation environment: token not yet wrapped, one
attestation txid, one parsed message, a VAA available, and the poll loop
succeeding at its third attempt. -/
def wrappedEnvOk : WrappedEnv :=
  { initialWrapped := none
    attestTxids := ["attTx1"]
    parseMsgs := ["whMsg1"]
    vaa := some "attestedTokenAddr"
    submitTxids := ["subTx1"]
    pollWrapped := fun k => if k = 2 then some "wrappedAddr" else none }

/-! ## C1: the insufficient-amount guard -/

/-- C1 (counterexample): the claim says an automatic transfer with quoted
destination amount `<= 0` fails with `InsufficientAmount` before any
source-chain submission.  The source guards with a strict
`quote.destinationToken.amount < 0`, so at destination amount exactly `0`
the transfer is not rejected: it submits on the source chain and records a
source transaction id. -/
theorem zero_destination_amount_still_submits :
    deliveryAutomatic autoRoute = true ∧
    ((envWithDestAmount 0).quoteOf autoRoute).destinationToken.amount ≤ 0 ∧
    (tokenTransfer (envWithDestAmount 0) autoRoute false).2 ≠
      Except.error TransferError.insufficientAmount ∧
    initiatedRoutesOf (tokenTransfer (envWithDestAmount 0) autoRoute false).1 = [autoRoute] := by
  refine ⟨rfl, ?_, ?_, ?_⟩
  · simp [envWithDestAmount]
  · simp [tokenTransfer, envWithDestAmount, deliveryAutomatic, autoRoute]
  · simp [tokenTransfer, envWithDestAmount, deliveryAutomatic, autoRoute, initiatedRoutesOf]

/-- C1 (amended): for every transfer with automatic delivery whose quoted
destination amount is strictly negative, `tokenTransfer` fails with the
insufficient-amount error and no source-chain submission occurs: the trace
contains no `initiated` event. -/
theorem negative_destination_amount_aborts_before_submission
    (env : TransferEnv) (route : Route) (rt : Bool)
    (hAuto : deliveryAutomatic route = true)
    (hNeg : (env.quoteOf route).destinationToken.amount < 0) :
    (tokenTransfer env route rt).2 = Except.error TransferError.insufficientAmount ∧
    initiatedRoutesOf (tokenTransfer env route rt).1 = [] := by
  simp [tokenTransfer, hAuto, hNeg, initiatedRoutesOf]

/-- Witness for C1's amended theorem at a concrete automatic route whose
quote reports destination amount `-1`. -/
theorem negative_destination_amount_aborts_before_submission_witness :
    (tokenTransfer (envWithDestAmount (-1)) autoRoute false).2 =
      Except.error TransferError.insufficientAmount ∧
    initiatedRoutesOf (tokenTransfer (envWithDestAmount (-1)) autoRoute false).1 = [] :=
  negative_destination_amount_aborts_before_submission (envWithDestAmount (-1)) autoRoute false
    rfl (by decide)

/-! ## Trace helper lemmas -/

theorem quotedRoutesOf_append (l₁ l₂ : List Event) :
    quotedRoutesOf (l₁ ++ l₂) = quotedRoutesOf l₁ ++ quotedRoutesOf l₂ := by
  induction l₁ with
  | nil => rfl
  | cons h t ih => cases h <;> simp [quotedRoutesOf, ih]

theorem initiatedRoutesOf_append (l₁ l₂ : List Event) :
    initiatedRoutesOf (l₁ ++ l₂) = initiatedRoutesOf l₁ ++ initiatedRoutesOf l₂ := by
  induction l₁ with
  | nil => rfl
  | cons h t ih => cases h <;> simp [initiatedRoutesOf, ih]

/-- The route substituted into the recursive round-trip call of
`tokenTransfer`: quote's destination token and amount become the new token
and amount, source and destination bundles are swapped, all other route
fields are spread from the first leg's route. -/
def secondLegRoute (env : TransferEnv) (route : Route) : Route :=
  { route with
    token := (env.quoteOf route).destinationToken.token
    amount := (env.quoteOf route).destinationToken.amount
    source := route.destination
    destination := route.source }

/-! ## C2: the round-trip second leg's request -/

/-- C2: when `roundTrip` is set and the first (manual-delivery) transfer
runs to completion, exactly one further leg is started and its request
takes the quote's destination token as token, the quoted destination amount
as amount, and swaps the source and destination bundles; when `roundTrip`
is false only the one leg runs and its completed record (source, attestation
and destination ids as returned by the environment) is the result. -/
theorem roundTrip_second_leg_request (env : TransferEnv) (route : Route)
    (hMan : deliveryAutomatic route = false) :
    quotedRoutesOf (tokenTransfer env route true).1 =
      [route,
       { route with
         token := (env.quoteOf route).destinationToken.token
         amount := (env.quoteOf route).destinationToken.amount
         source := route.destination
         destination := route.source }] ∧
    (tokenTransfer env route false).2 =
      Except.ok ⟨route, env.initiateTxids route, env.attestIds route,
                 env.completeTxids route⟩ ∧
    quotedRoutesOf (tokenTransfer env route false).1 = [route] := by
  have hMan' := hMan
  simp only [deliveryAutomatic] at hMan'
  refine ⟨?_, ?_, ?_⟩ <;>
    simp [tokenTransfer, hMan, hMan', deliveryAutomatic, quotedRoutesOf,
          quotedRoutesOf_append]

/-- Witness for C2 at a concrete manual route and environment. -/
theorem roundTrip_second_leg_request_witness :
    quotedRoutesOf (tokenTransfer (envWithDestAmount 7) manualRoute true).1 =
      [manualRoute,
       { manualRoute with
         token := ((envWithDestAmount 7).quoteOf manualRoute).destinationToken.token
         amount := ((envWithDestAmount 7).quoteOf manualRoute).destinationToken.amount
         source := manualRoute.destination
         destination := manualRoute.source }] ∧
    (tokenTransfer (envWithDestAmount 7) manualRoute false).2 =
      Except.ok ⟨manualRoute, (envWithDestAmount 7).initiateTxids manualRoute,
                 (envWithDestAmount 7).attestIds manualRoute,
                 (envWithDestAmount 7).completeTxids manualRoute⟩ ∧
    quotedRoutesOf (tokenTransfer (envWithDestAmount 7) manualRoute false).1 =
      [manualRoute] :=
  roundTrip_second_leg_request (envWithDestAmount 7) manualRoute rfl

/-! ## C3: automatic transfers stop after initiation -/

/-- C3: for every transfer with automatic delivery, the trace contains no
`fetchAttestation` and no `completeTransfer` call; any successfully
returned record has empty destination and attestation ids and carries
exactly the source-chain submission's transaction ids, so it is non-empty
as soon as the submission returned at least one id. -/
theorem automatic_transfer_skips_attestation_and_completion
    (env : TransferEnv) (route : Route) (rt : Bool)
    (hAuto : deliveryAutomatic route = true) :
    hasFetch (tokenTransfer env route rt).1 = false ∧
    hasComplete (tokenTransfer env route rt).1 = false ∧
    (∀ o, (tokenTransfer env route rt).2 = Except.ok o →
      o.destinationTxIds = [] ∧ o.attestationIds = [] ∧
      o.sourceTxIds = env.initiateTxids route) ∧
    (env.initiateTxids route ≠ [] →
      ∀ o, (tokenTransfer env route rt).2 = Except.ok o → o.sourceTxIds ≠ []) := by
  by_cases hNeg : (env.quoteOf route).destinationToken.amount < 0
  · simp [tokenTransfer, hAuto, hNeg, hasFetch, hasComplete]
  · refine ⟨?_, ?_, ?_, ?_⟩ <;>
      simp [tokenTransfer, hAuto, hNeg, hasFetch, hasComplete]

/-- Witness for C3 at a concrete automatic route and environment. -/
theorem automatic_transfer_skips_attestation_and_completion_witness :
    hasFetch (tokenTransfer (envWithDestAmount 5) autoRoute false).1 = false ∧
    hasComplete (tokenTransfer (envWithDestAmount 5) autoRoute false).1 = false ∧
    (∀ o, (tokenTransfer (envWithDestAmount 5) autoRoute false).2 = Except.ok o →
      o.destinationTxIds = [] ∧ o.attestationIds = [] ∧
      o.sourceTxIds = (envWithDestAmount 5).initiateTxids autoRoute) ∧
    ((envWithDestAmount 5).initiateTxids autoRoute ≠ [] →
      ∀ o, (tokenTransfer (envWithDestAmount 5) autoRoute false).2 = Except.ok o →
        o.sourceTxIds ≠ []) :=
  automatic_transfer_skips_attestation_and_completion (envWithDestAmount 5) autoRoute false rfl

/-! ## C5: recursion depth -/

/-- A round-trip-free run (`roundTrip = false`, exactly the recursive call's
flag) performs at most one leg: at most one quote and one initiation. -/
theorem single_leg_counts (env : TransferEnv) (route : Route) :
    (quotedRoutesOf (tokenTransfer env route false).1).length ≤ 1 ∧
    (initiatedRoutesOf (tokenTransfer env route false).1).length ≤ 1 := by
  by_cases hAuto : deliveryAutomatic route = true
  · by_cases hNeg : (env.quoteOf route).destinationToken.amount < 0
    · simp [tokenTransfer, hAuto, hNeg, quotedRoutesOf, initiatedRoutesOf]
    · simp [tokenTransfer, hAuto, hNeg, quotedRoutesOf, initiatedRoutesOf]
  · simp [tokenTransfer, hAuto, quotedRoutesOf, initiatedRoutesOf]

/-- C5: for every environment, request and `roundTrip` value, the whole run
starts at most two legs — the second leg's recursive call passes no
`roundTrip` flag, so it never starts a third transfer. -/
theorem roundTrip_depth_at_most_two_legs (env : TransferEnv) (route : Route) (rt : Bool) :
    (quotedRoutesOf (tokenTransfer env route rt).1).length ≤ 2 ∧
    (initiatedRoutesOf (tokenTransfer env route rt).1).length ≤ 2 := by
  match rt with
  | false =>
    obtain ⟨h₁, h₂⟩ := single_leg_counts env route
    exact ⟨h₁.trans (by norm_num), h₂.trans (by norm_num)⟩
  | true =>
    by_cases hAuto : deliveryAutomatic route = true
    · by_cases hNeg : (env.quoteOf route).destinationToken.amount < 0
      · simp [tokenTransfer, hAuto, hNeg, quotedRoutesOf, initiatedRoutesOf]
      · simp [tokenTransfer, hAuto, hNeg, quotedRoutesOf, initiatedRoutesOf]
    · have hMan : deliveryAutomatic route = false := by
        simpa using hAuto
      have hMan' := hMan
      simp only [deliveryAutomatic] at hMan'
      constructor
      · simp [tokenTransfer, hMan, hMan', deliveryAutomatic,
              quotedRoutesOf_append, quotedRoutesOf]
      · simp [tokenTransfer, hMan, hMan', deliveryAutomatic,
              initiatedRoutesOf_append, initiatedRoutesOf]

/-! ## C8: the quote is computed before any submission -/

/-- C8: in every run, whatever the environment, request and `roundTrip`
value, each `initiated` (source-chain submission) event's route was quoted
strictly earlier in the trace: no submission ever precedes the quote call
of its leg. -/
theorem quote_precedes_initiate (env : TransferEnv) (route : Route) (rt : Bool) :
    quotedBeforeInitiated [] (tokenTransfer env route rt).1 = true := by
  match rt with
  | false =>
    by_cases hAuto : deliveryAutomatic route = true
    · by_cases hNeg : (env.quoteOf route).destinationToken.amount < 0
      · simp [tokenTransfer, hAuto, hNeg, quotedBeforeInitiated]
      · simp [tokenTransfer, hAuto, hNeg, quotedBeforeInitiated]
    · simp [tokenTransfer, hAuto, quotedBeforeInitiated]
  | true =>
    by_cases hAuto : deliveryAutomatic route = true
    · by_cases hNeg : (env.quoteOf route).destinationToken.amount < 0
      · simp [tokenTransfer, hAuto, hNeg, quotedBeforeInitiated]
      · simp [tokenTransfer, hAuto, hNeg, quotedBeforeInitiated]
    · have hMan : deliveryAutomatic route = false := by simpa using hAuto
      have hMan' := hMan
      simp only [deliveryAutomatic] at hMan'
      simp [tokenTransfer, hMan, hMan', deliveryAutomatic, quotedBeforeInitiated]

/-! ## C9: frame of the round-trip second leg -/

/-- C9: the second leg's request differs from the first leg's only in
token, amount, source and destination; in particular the delivery options
and the payload are spread unchanged from the first leg's route, and the
second leg therefore runs manual (non-automatic) delivery, the only mode
that reaches the round-trip branch. -/
theorem second_leg_preserves_delivery_and_payload (env : TransferEnv) (route : Route)
    (hMan : deliveryAutomatic route = false) :
    quotedRoutesOf (tokenTransfer env route true).1 = [route, secondLegRoute env route] ∧
    (secondLegRoute env route).delivery = route.delivery ∧
    (secondLegRoute env route).payload = route.payload ∧
    deliveryAutomatic (secondLegRoute env route) = false ∧
    (secondLegRoute env route).token = (env.quoteOf route).destinationToken.token ∧
    (secondLegRoute env route).amount = (env.quoteOf route).destinationToken.amount ∧
    (secondLegRoute env route).source = route.destination ∧
    (secondLegRoute env route).destination = route.source := by
  refine ⟨?_, rfl, rfl, hMan, rfl, rfl, rfl, rfl⟩
  have hMan' := hMan
  simp only [deliveryAutomatic] at hMan'
  simp [tokenTransfer, hMan, hMan', deliveryAutomatic, secondLegRoute,
        quotedRoutesOf, quotedRoutesOf_append]

/-- Witness for C9 at a concrete manual route and environment. -/
theorem second_leg_preserves_delivery_and_payload_witness :
    quotedRoutesOf (tokenTransfer (envWithDestAmount 7) manualRoute true).1 =
      [manualRoute, secondLegRoute (envWithDestAmount 7) manualRoute] ∧
    (secondLegRoute (envWithDestAmount 7) manualRoute).delivery = manualRoute.delivery ∧
    (secondLegRoute (envWithDestAmount 7) manualRoute).payload = manualRoute.payload ∧
    deliveryAutomatic (secondLegRoute (envWithDestAmount 7) manualRoute) = false ∧
    (secondLegRoute (envWithDestAmount 7) manualRoute).token =
      ((envWithDestAmount 7).quoteOf manualRoute).destinationToken.token ∧
    (secondLegRoute (envWithDestAmount 7) manualRoute).amount =
      ((envWithDestAmount 7).quoteOf manualRoute).destinationToken.amount ∧
    (secondLegRoute (envWithDestAmount 7) manualRoute).source = manualRoute.destination ∧
    (secondLegRoute (envWithDestAmount 7) manualRoute).destination = manualRoute.source :=
  second_leg_preserves_delivery_and_payload (envWithDestAmount 7) manualRoute rfl

/-! ## C4: idempotence shortcut of the attestation flow -/

/-- C4: when the wrapped-asset lookup already resolves for the token on the
destination chain, the flow returns the existing wrapped address (tagged
with the destination chain) after the single lookup, and the trace contains
neither a `createAttestation` transaction construction nor any transaction
submission. -/
theorem already_wrapped_skips_attestation (cfg : WrappedConfig) (env : WrappedEnv)
    (fuel : Nat) (w : String) (h : env.initialWrapped = some w) :
    createWrapped cfg env fuel =
      ([WEvent.checkWrapped], WResult.registered cfg.destChain w) ∧
    hasCreateAttestation (createWrapped cfg env fuel).1 = false ∧
    hasSubmit (createWrapped cfg env fuel).1 = false := by
  simp [createWrapped, h, hasCreateAttestation, hasSubmit]

/-- An environment in which the token is already wrapped on the
destination chain. -/
def wrappedEnvAlready : WrappedEnv :=
  { wrappedEnvOk with initialWrapped := some "existingWrapped" }

/-- Witness for C4 at a concrete already-registered environment. -/
theorem already_wrapped_skips_attestation_witness :
    createWrapped sampleCfg wrappedEnvAlready 3 =
      ([WEvent.checkWrapped], WResult.registered sampleCfg.destChain "existingWrapped") ∧
    hasCreateAttestation (createWrapped sampleCfg wrappedEnvAlready 3).1 = false ∧
    hasSubmit (createWrapped sampleCfg wrappedEnvAlready 3).1 = false :=
  already_wrapped_skips_attestation sampleCfg wrappedEnvAlready 3 "existingWrapped" rfl

/-! ## C6: the registration poll loop -/

theorem waitForIt_sleeps (env : WrappedEnv) (d : String) :
    ∀ fuel attempt, allSleepsAre 2000 (waitForIt env d attempt fuel).1 = true := by
  intro fuel
  induction fuel with
  | zero => intro s; simp [waitForIt, allSleepsAre]
  | succ n ih =>
    intro s
    cases h : env.pollWrapped s with
    | some w => simp [waitForIt, h, allSleepsAre]
    | none => simp [waitForIt, h, allSleepsAre, ih]

theorem waitForIt_never_succeeds (env : WrappedEnv) (d : String)
    (hall : ∀ k, env.pollWrapped k = none) :
    ∀ fuel attempt, (waitForIt env d attempt fuel).2 = none := by
  intro fuel
  induction fuel with
  | zero => intro s; rfl
  | succ n ih => intro s; simp [waitForIt, hall s, ih]

theorem waitForIt_first_success (env : WrappedEnv) (d : String) (w : String) :
    ∀ fuel attempt n, attempt ≤ n →
      (∀ k, attempt ≤ k → k < n → env.pollWrapped k = none) →
      env.pollWrapped n = some w → n < attempt + fuel →
      (waitForIt env d attempt fuel).2 = some (d, w) := by
  intro fuel
  induction fuel with
  | zero => intro s n hsn _ _ hlt; omega
  | succ m ih =>
    intro s n hsn hnone hn hlt
    rcases eq_or_lt_of_le hsn with heq | hlt'
    · subst heq
      simp [waitForIt, hn]
    · have hs : env.pollWrapped s = none := hnone s le_rfl hlt'
      have hrec : (waitForIt env d (s + 1) m).2 = some (d, w) :=
        ih (s + 1) n hlt' (fun k hk1 hk2 => hnone k (by omega) hk2) hn (by omega)
      simp [waitForIt, hs, hrec]

theorem waitForIt_success_implies_lookup (env : WrappedEnv) (d : String) :
    ∀ fuel attempt p, (waitForIt env d attempt fuel).2 = some p →
      ∃ k, attempt ≤ k ∧ k < attempt + fuel ∧ (env.pollWrapped k).isSome := by
  intro fuel
  induction fuel with
  | zero => intro s p h; simp [waitForIt] at h
  | succ m ih =>
    intro s p h
    cases hs : env.pollWrapped s with
    | some w => exact ⟨s, le_rfl, by omega, by simp [hs]⟩
    | none =>
      simp only [waitForIt, hs] at h
      obtain ⟨k, hk1, hk2, hk3⟩ := ih (s + 1) p h
      exact ⟨k, by omega, by omega, hk3⟩

/-- C6: the poll loop sleeps a fixed 2000 ms between attempts; if no lookup
ever succeeds it never returns, for any cancellation budget (`fuel`); it
returns the destination chain paired with the wrapped address of the first
successful lookup as soon as one succeeds within the budget; and it returns
a value only if some lookup within the budget succeeded. -/
theorem waitForIt_polls_until_success (env : WrappedEnv) (d : String) (fuel : Nat) :
    allSleepsAre 2000 (waitForIt env d 0 fuel).1 = true ∧
    ((∀ k, env.pollWrapped k = none) → (waitForIt env d 0 fuel).2 = none) ∧
    (∀ n w, (∀ k, k < n → env.pollWrapped k = none) → env.pollWrapped n = some w →
      n < fuel → (waitForIt env d 0 fuel).2 = some (d, w)) ∧
    (∀ p, (waitForIt env d 0 fuel).2 = some p →
      ∃ k, k < fuel ∧ (env.pollWrapped k).isSome) := by
  refine ⟨waitForIt_sleeps env d fuel 0,
          fun hall => waitForIt_never_succeeds env d hall fuel 0, ?_, ?_⟩
  · intro n w hnone hn hlt
    exact waitForIt_first_success env d w fuel 0 n (Nat.zero_le n)
      (fun k _ hk => hnone k hk) hn (by omega)
  · intro p hp
    obtain ⟨k, _, hk2, hk3⟩ := waitForIt_success_implies_lookup env d fuel 0 p hp
    exact ⟨k, by omega, hk3⟩

/-- Witness for C6: with the lookup first succeeding at attempt 2 and a
budget of 5 attempts, the loop returns the wrapped address. -/
theorem waitForIt_polls_until_success_witness :
    (waitForIt wrappedEnvOk "Solana" 0 5).2 = some ("Solana", "wrappedAddr") :=
  (waitForIt_polls_until_success wrappedEnvOk "Solana" 5).2.2.1 2 "wrappedAddr"
    (by decide) (by decide) (by decide)

/-! ## C7: the signed-attestation lookup -/

theorem vaaQueriesOf_waitForIt (env : WrappedEnv) (d : String) :
    ∀ fuel attempt, vaaQueriesOf (waitForIt env d attempt fuel).1 = [] := by
  intro fuel
  induction fuel with
  | zero => intro s; rfl
  | succ m ih =>
    intro s
    cases hs : env.pollWrapped s with
    | some w => simp [waitForIt, hs, vaaQueriesOf]
    | none => simp [waitForIt, hs, vaaQueriesOf, ih]

/-- C7: when the attestation path is taken, the flow parses only the first
transaction id returned by the attestation submission, and the run contains
exactly one signed-attestation lookup, keyed by the first parsed message,
with message type string `"TokenBridge:AttestMeta"` (whose payload
component is `AttestMeta`) and a 25-minute timeout; if that lookup yields
nothing within the timeout, the flow fails with the explicit
VAA-not-found error instead of proceeding or querying again. -/
theorem vaa_lookup_keyed_by_first_message (cfg : WrappedConfig) (env : WrappedEnv)
    (fuel : Nat) (t : String) (ts : List String) (m : String) (ms : List String)
    (h0 : env.initialWrapped = none)
    (ht : env.attestTxids = t :: ts) (hm : env.parseMsgs = m :: ms) :
    WEvent.parseTx t ∈ (createWrapped cfg env fuel).1 ∧
    vaaQueriesOf (createWrapped cfg env fuel).1 =
      [(m, "TokenBridge:AttestMeta", 25 * 60 * 1000)] ∧
    "TokenBridge:AttestMeta" = "TokenBridge:" ++ "AttestMeta" ∧
    (env.vaa = none → (createWrapped cfg env fuel).2 =
      WResult.vaaNotFound
        "VAA not found after retries exhausted. Try extending the timeout.") := by
  cases hv : env.vaa with
  | none =>
    refine ⟨?_, ?_, rfl, fun _ => ?_⟩ <;>
      simp [createWrapped, h0, ht, hm, hv, vaaQueriesOf]
  | some v =>
    refine ⟨?_, ?_, rfl, fun hc => absurd hc (by simp)⟩
    · cases hp : (waitForIt env cfg.destChain 0 fuel).2 <;>
        simp [createWrapped, h0, ht, hm, hv, hp]
    · cases hp : (waitForIt env cfg.destChain 0 fuel).2 <;>
        simp [createWrapped, h0, ht, hm, hv, hp, vaaQueriesOf, vaaQueriesOf_waitForIt]

/-- An environment in which the VAA never becomes available within the
lookup's timeout. -/
def wrappedEnvNoVaa : WrappedEnv := { wrappedEnvOk with vaa := none }

/-- Witness for C7 at a concrete environment whose VAA lookup times out. -/
theorem vaa_lookup_keyed_by_first_message_witness :
    WEvent.parseTx "attTx1" ∈ (createWrapped sampleCfg wrappedEnvNoVaa 3).1 ∧
    vaaQueriesOf (createWrapped sampleCfg wrappedEnvNoVaa 3).1 =
      [("whMsg1", "TokenBridge:AttestMeta", 25 * 60 * 1000)] ∧
    "TokenBridge:AttestMeta" = "TokenBridge:" ++ "AttestMeta" ∧
    (wrappedEnvNoVaa.vaa = none → (createWrapped sampleCfg wrappedEnvNoVaa 3).2 =
      WResult.vaaNotFound
        "VAA not found after retries exhausted. Try extending the timeout.") :=
  vaa_lookup_keyed_by_first_message sampleCfg wrappedEnvNoVaa 3
    "attTx1" [] "whMsg1" [] rfl rfl rfl

/-! ## C10: first-element accesses in the attestation flow -/

/-- An environment in which the attestation submission reports no
transaction ids. -/
def wrappedEnvNoTxids : WrappedEnv := { wrappedEnvOk with attestTxids := [] }

/-- An environment in which parsing the attestation transaction reports no
messages. -/
def wrappedEnvNoMsgs : WrappedEnv := { wrappedEnvOk with parseMsgs := [] }

/-- C10: whenever the attestation submission returns at least one
transaction id and parsing it returns at least one message, the flow's
first-element accesses are safe and the run never ends in the uncaught
crash; with an empty answer from either call the run ends in the crash
(rather than in any of the typed failures). -/
theorem first_element_accesses_safe :
    (∀ (cfg : WrappedConfig) (env : WrappedEnv) (fuel : Nat),
      env.attestTxids ≠ [] → env.parseMsgs ≠ [] →
      (createWrapped cfg env fuel).2 ≠ WResult.crash) ∧
    (createWrapped sampleCfg wrappedEnvNoTxids 3).2 = WResult.crash ∧
    (createWrapped sampleCfg wrappedEnvNoMsgs 3).2 = WResult.crash := by
  refine ⟨?_, rfl, rfl⟩
  intro cfg env fuel ht hm
  cases h0 : env.initialWrapped with
  | some w => simp [createWrapped, h0]
  | none =>
    cases htx : env.attestTxids with
    | nil => exact absurd htx ht
    | cons t ts =>
      cases hms : env.parseMsgs with
      | nil => exact absurd hms hm
      | cons m ms =>
        cases hv : env.vaa with
        | none => simp [createWrapped, h0, htx, hms, hv]
        | some v =>
          cases hp : (waitForIt env cfg.destChain 0 fuel).2 <;>
            simp [createWrapped, h0, htx, hms, hv, hp]

/-- Witness for C10 at a concrete well-behaved environment. -/
theorem first_element_accesses_safe_witness :
    (createWrapped sampleCfg wrappedEnvOk 5).2 ≠ WResult.crash :=
  first_element_accesses_safe.1 sampleCfg wrappedEnvOk 5 (by decide) (by decide)

end Wormhole
